import Mathlib

/-!
Verification of `annotypes/_calltypes.py` (dls-controls/annotypes).

This file shallowly embeds the signature-introspection engine of
`_calltypes.py`: `make_annotations` (the type-comment parser),
`make_call_types` (the signature introspection engine) and
`CallTypesMeta.__init__` (the declaration hook), and proves or refutes the
frozen claims about them.

Modelling conventions:
* Python values that can flow through the engine are `PyVal`: `vnone` is
  `None`, `vany` is the `typing.Any` marker, `vstr` a string, `vtuple` a
  tuple, `vanno` an `Anno` type descriptor (description, type tag, name,
  optional default; a missing default models the `NO_DEFAULT` sentinel),
  and `vobj tag` any other object (a raw type such as `str`), identified
  by its repr text `tag`.
* A callable `f` is modelled by `PyFunc`: the fields mirror exactly what
  `_calltypes.py` observes of it: `getargspec(f)` (its `args`, `varargs`,
  `keywords` and `defaults` fields), `f.__annotations__` (the empty list
  models a falsy/absent annotations dict), and the COMMENT-token strings
  produced by `tokenize.generate_tokens` over `inspect.getsourcelines(f)`,
  in source order.
* `eval(expr, globals_d, {})` is modelled by an `EvalEnv`: a function from
  the expression string to either a value or the text of the raised
  exception.  This is the caller-supplied namespace of the source.
* Python `repr` of the values involved in error messages is modelled by
  `pyReprV` / `pyReprStr` (single-quoted strings, bracketed lists).
-/

/-- A Python value as observed by `_calltypes.py`. -/
inductive PyVal : Type where
  | vnone : PyVal
  | vany : PyVal
  | vstr : String → PyVal
  | vobj : String → PyVal
  | vtuple : List PyVal → PyVal
  | vanno : String → String → String → Option PyVal → PyVal

/-- `isinstance(v, Anno)`. -/
def PyVal.isAnno : PyVal → Bool
  | PyVal.vanno _ _ _ _ => true
  | _ => false

/-- `v is Any`. -/
def PyVal.isAny : PyVal → Bool
  | PyVal.vany => true
  | _ => false

/-- `v is None`. -/
def PyVal.isNone : PyVal → Bool
  | PyVal.vnone => true
  | _ => false

/-- The exceptions `_calltypes.py` can raise. -/
inductive PyErr : Type where
  | valueError : String → PyErr
  | assertionError : String → PyErr
  | keyError : String → PyErr
deriving DecidableEq

/-- The callable surface inspected by `_calltypes.py`: `getargspec(f)`
(`args`, `varargs`, `keywords`, `defaults`), `f.__annotations__`
(`[]` models a falsy/absent dict), and the comment-token strings of the
callable's source in order. -/
structure PyFunc : Type where
  argNames : List String
  varargs : Option String
  keywords : Option String
  defaults : List PyVal
  annotations : List (String × PyVal)
  sourceComments : List String

/-- The caller-supplied namespace: `eval(expr, globals_d, {})` either
produces a value or raises, with the given exception text. -/
structure EvalEnv : Type where
  eval : String → Except String PyVal

/-- Python `repr` of a string: single quotes around the text. -/
def pyReprStr (s : String) : String := "\x27" ++ s ++ "\x27"

mutual

/-- Python `repr` of a value, as used in the error messages of
`_calltypes.py` (`%r` formatting). -/
def pyReprV : PyVal → String
  | PyVal.vnone => "None"
  | PyVal.vany => "typing.Any"
  | PyVal.vstr s => pyReprStr s
  | PyVal.vobj t => t
  | PyVal.vtuple vs => "(" ++ pyReprVs vs ++ ")"
  | PyVal.vanno d t n _ =>
      "Anno(name=" ++ pyReprStr n ++ ", typ=" ++ t ++
        ", description=" ++ pyReprStr d ++ ")"

/-- Comma-separated reprs of a list of values. -/
def pyReprVs : List PyVal → String
  | [] => ""
  | [v] => pyReprV v
  | v :: rest => pyReprV v ++ ", " ++ pyReprVs rest

end

/-- Python `repr` of a list of strings (`%r` of the `args` list). -/
def strListRepr (l : List String) : String :=
  "[" ++ String.intercalate ", " (l.map pyReprStr) ++ "]"

/-- Python `repr` of a list of values (`%r` of the `types` list). -/
def pyListRepr (l : List PyVal) : String :=
  "[" ++ String.intercalate ", " (l.map pyReprV) ++ "]"

/-- Strip a literal prefix from a character list, or fail. -/
def dropPrefixCh : List Char → List Char → Option (List Char)
  | [], cs => Option.some cs
  | _ :: _, [] => Option.none
  | p :: ps, c :: cs => if c = p then dropPrefixCh ps cs else Option.none

/-- `type_re = re.compile((raw) "^# type: ([^-]*)( -> (.*))?$")` applied with
`.match` to a comment-token string.  Returns groups 1 and 3 on a match.
The first group is a maximal dash-free run, so the regex matches exactly
when either the text after `# type: ` has no dash at all (no return part),
or its first dash is the dash of a literal ` -> ` separator, in which case
group 1 is the text before the separator and group 3 (greedy `.*`) is
everything after it. -/
def matchTypeRe (s : String) : Option (String × Option String) :=
  match dropPrefixCh "# type: ".data s.data with
  | Option.none => Option.none
  | Option.some t =>
    match t.findIdx? (fun c => c = '-') with
    | Option.none => Option.some (String.mk t, Option.none)
    | Option.some i =>
      if 1 ≤ i ∧ t[i-1]? = Option.some ' ' ∧ t[i+1]? = Option.some '>' ∧
          t[i+2]? = Option.some ' ' then
        Option.some (String.mk (t.take (i-1)), Option.some (String.mk (t.drop (i+3))))
      else
        Option.none

/-- `parts[0].replace("*", "")`: delete every asterisk from the string. -/
def removeStars (s : String) : String :=
  String.mk (s.data.filter (fun c => c ≠ '*'))

/-- Association-list lookup, modelling Python dict lookup (`d[k]` /
`d.get(k)`); keys in this development are distinct. -/
def lookupA (l : List (String × PyVal)) (k : String) : Option PyVal :=
  match l with
  | [] => Option.none
  | (k2, v) :: rest => if k2 = k then Option.some v else lookupA rest k

/-- Modelled from the spec: `anno_with_default` lives in `_anno.py`, which
is not under src.  Per §4.1 `with_default`, a descriptor copy is returned
whose default is the supplied raw default; when the raw default is the
"any value" marker the descriptor becomes a generic accept-any descriptor
instead.  Consistently with the uses in `make_call_types` (which tests
`return_type is Any` and `isinstance(return_type, Anno)` on the result),
non-descriptor values pass through unchanged, and with no supplied default
(the `NO_DEFAULT` sentinel, modelled as `Option.none`) a descriptor is
returned unchanged. -/
def anno_with_default (v : PyVal) (default : Option PyVal := Option.none) : PyVal :=
  match v with
  | PyVal.vanno d t n old =>
    match default with
    | Option.none => PyVal.vanno d t n old
    | Option.some dv =>
      if dv.isAny then PyVal.vanno d "Any" n Option.none
      else PyVal.vanno d t n (Option.some dv)
  | other => other

/-- Lines 107-119 of `_calltypes.py`: handle the argument part of a
matched type comment.  The literal `(...)` continuation marker adds
nothing; otherwise the dash-free group with every `*` deleted is evaluated
against the namespace (failure raises `ValueError` naming the expression
and the underlying error), a tuple result extends the running type list
elementwise and any other result is appended. -/
def evalArgPart (env : EvalEnv) (types : List PyVal) (p0 : String) :
    Except PyErr (List PyVal) :=
  if p0 = "(...)" then Except.ok types
  else
    match env.eval (removeStars p0) with
    | Except.error e =>
        Except.error (PyErr.valueError
          ("Error evaluating " ++ pyReprStr (removeStars p0) ++ ": " ++ e))
    | Except.ok (PyVal.vtuple vs) => Except.ok (types ++ vs)
    | Except.ok ob => Except.ok (types ++ [ob])

/-- The comment-scanning loop of `make_annotations` (lines 100-132).
Comment tokens are visited in source order; non-matching comments are
skipped; a matching comment first has its argument part handled; a
matching comment with a ` -> ` return part evaluates the return
expression, asserts the arg/type counts agree, zips names to types, adds
the `"return"` entry and returns, otherwise scanning continues.  An
exhausted scan raises `ValueError`. -/
def maScan (env : EvalEnv) (args : List String) :
    List PyVal → List String → Except PyErr (List (String × PyVal))
  | _, [] =>
      Except.error (PyErr.valueError
        "Got to the end of the function without seeing ->")
  | types, c :: rest =>
    match matchTypeRe c with
    | Option.none => maScan env args types rest
    | Option.some (p0, ret?) =>
      match evalArgPart env types p0 with
      | Except.error e => Except.error e
      | Except.ok types2 =>
        match ret? with
        | Option.none => maScan env args types2 rest
        | Option.some rexpr =>
          match env.eval rexpr with
          | Except.error e =>
              Except.error (PyErr.valueError
                ("Error evaluating " ++ pyReprStr rexpr ++ ": " ++ e))
          | Except.ok ob =>
            if args.length = types2.length then
              Except.ok (args.zip types2 ++ [("return", ob)])
            else
              Except.error (PyErr.assertionError
                ("Args " ++ strListRepr args ++ " Types " ++ pyListRepr types2 ++
                  " length mismatch"))

/-- Lines 92-97 of `_calltypes.py`: the parameter-name list used by
`make_annotations`: `arg_spec.args` with every `"self"` removed, then the
varargs name and the keywords name when present. -/
def maArgs (f : PyFunc) : List String :=
  (f.argNames.filter (fun k => k ≠ "self")) ++ f.varargs.toList ++ f.keywords.toList

/-- `make_annotations(f, globals_d)` (lines 81-132 of `_calltypes.py`). -/
def make_annotations (f : PyFunc) (env : EvalEnv) :
    Except PyErr (List (String × PyVal)) :=
  maScan env (maArgs f) [] f.sourceComments

/-- Line 51 of `_calltypes.py`: `args = [k for k in arg_spec.args if k != "self"]`. -/
def filteredArgs (f : PyFunc) : List String :=
  f.argNames.filter (fun k => k ≠ "self")

/-- Lines 53-57 of `_calltypes.py`: the name-to-default mapping.  When
`arg_spec.defaults` is non-empty, `args[-len(defaults):]` (the trailing
parameters; Python's negative-index clamping is Nat subtraction's
truncation) is zipped with the default values. -/
def defaultsOf (f : PyFunc) : List (String × PyVal) :=
  let args := filteredArgs f
  if f.defaults.isEmpty then []
  else (args.drop (args.length - f.defaults.length)).zip f.defaults

/-- Lines 59-63 of `_calltypes.py`: use `f.__annotations__` when present
and non-empty, otherwise parse type comments. -/
def usedAnnotations (f : PyFunc) (env : EvalEnv) :
    Except PyErr (List (String × PyVal)) :=
  if f.annotations.isEmpty then make_annotations f env else Except.ok f.annotations

/-- Lines 65-70 of `_calltypes.py`: the `for a in args` loop. Each
parameter's raw annotation is looked up (`KeyError` when absent), its
positional default (or the `NO_DEFAULT` sentinel) attached via
`anno_with_default`, and the result asserted to be an `Anno`. -/
def buildCallTypes (annos dmap : List (String × PyVal)) :
    List String → Except PyErr (List (String × PyVal))
  | [] => Except.ok []
  | a :: rest =>
    match lookupA annos a with
    | Option.none => Except.error (PyErr.keyError a)
    | Option.some raw =>
      let anno := anno_with_default raw (lookupA dmap a)
      if anno.isAnno then
        match buildCallTypes annos dmap rest with
        | Except.error e => Except.error e
        | Except.ok l => Except.ok ((a, anno) :: l)
      else
        Except.error (PyErr.assertionError
          ("Argument " ++ pyReprStr a ++ " has type " ++ pyReprV anno ++
            " which is not an Anno"))

/-- Lines 72-76 of `_calltypes.py`: resolve the return descriptor from the
raw mapping's `"return"` entry (absent means `None`), replace the `Any`
marker by a synthesized `Anno("Any return value", Any, "return")`, and
assert the result is `None` or an `Anno`. -/
def resolveReturn (annos : List (String × PyVal)) : Except PyErr PyVal :=
  let rt0 := anno_with_default ((lookupA annos "return").getD PyVal.vnone) Option.none
  let rt := if rt0.isAny then PyVal.vanno "Any return value" "Any" "return" Option.none
            else rt0
  if rt.isNone || rt.isAnno then Except.ok rt
  else
    Except.error (PyErr.assertionError
      ("Return has type " ++ pyReprV rt ++ " which is not an Anno"))

/-- `make_call_types(f, globals_d)` (lines 42-78 of `_calltypes.py`). -/
def make_call_types (f : PyFunc) (env : EvalEnv) :
    Except PyErr (List (String × PyVal) × PyVal) :=
  match usedAnnotations f env with
  | Except.error e => Except.error e
  | Except.ok annos =>
    match buildCallTypes annos (defaultsOf f) (filteredArgs f) with
    | Except.error e => Except.error e
    | Except.ok ct =>
      match resolveReturn annos with
      | Except.error e => Except.error e
      | Except.ok rt => Except.ok (ct, rt)

/-- Line 23 of `_calltypes.py`: `Anno("Class instance", typ=cls, name="Instance")`. -/
def instanceAnno (clsName : String) : PyVal :=
  PyVal.vanno "Class instance" clsName "Instance" Option.none

/-- `CallTypesMeta.__init__` (lines 16-24 of `_calltypes.py`): the class
attributes stored by the declaration hook.  `dctInit` is
`dct.get('__init__', None)` — the constructor found in the class's *own*
declaration dict.  When it is absent the class's `call_types` is set to a
fresh empty `OrderedDict()`; `return_type` is always set to a fresh
instance descriptor for the class itself. -/
def callTypesMetaInit (env : EvalEnv) (clsName : String) (dctInit : Option PyFunc) :
    Except PyErr (List (String × PyVal) × PyVal) :=
  match dctInit with
  | Option.some f =>
    match make_call_types f env with
    | Except.error e => Except.error e
    | Except.ok (ct, _) => Except.ok (ct, instanceAnno clsName)
  | Option.none => Except.ok ([], instanceAnno clsName)

/-- The namespace that evaluates every expression to its own text, used to
observe exactly which expression string the parser hands to `eval`. -/
def idEnv : EvalEnv := EvalEnv.mk (fun s => Except.ok (PyVal.vstr s))


/-! ### Concrete fixtures used by witnesses and counterexamples -/

/-- A namespace for concrete runs: resolves a few known expressions and
raises a Python-style `NameError` text on anything else. -/
def envT : EvalEnv := EvalEnv.mk (fun s =>
  if s = "(T, str)" then Except.ok (PyVal.vtuple [PyVal.vobj "T", PyVal.vobj "str"])
  else if s = "str" then Except.ok (PyVal.vobj "str")
  else if s = "(int)" then Except.ok (PyVal.vobj "int")
  else if s = "None" then Except.ok PyVal.vnone
  else Except.error ("name " ++ pyReprStr s ++ " is not defined"))

/-- The classmethod `c(cls, a)` of `test_make_annotations_self`, whose type
comment is `# type: (T, str) -> str`. -/
def clsmethodF : PyFunc :=
  PyFunc.mk ["cls", "a"] Option.none Option.none [] [] ["# type: (T, str) -> str"]

/-- A two-parameter function whose source holds no type comment at all
(`test_make_annotations_no_comments`). -/
def noCommentF : PyFunc :=
  PyFunc.mk ["a", "b"] Option.none Option.none [] [] []

/-- A function whose only type comment has no ` -> ` return part and whose
argument expression does not resolve in the namespace. -/
def noArrowBadF : PyFunc :=
  PyFunc.mk ["arg"] Option.none Option.none [] [] ["# type: (NonExistant)"]

/-- A function whose only type comment has no ` -> ` return part but whose
argument expression does resolve. -/
def noArrowOkF : PyFunc :=
  PyFunc.mk ["arg"] Option.none Option.none [] [] ["# type: (int)"]

/-- The `Good` descriptor of the test module: `Anno("Good origin")` bound
to `Good = str`. -/
def annoGood : PyVal := PyVal.vanno "Good origin" "str" "Good" Option.none

/-- Namespace for the `Root`/`Sub1` class hierarchy of
`test_subclassing_with_no_init`. -/
def envC1 : EvalEnv := EvalEnv.mk (fun s =>
  if s = "(Good)" then Except.ok annoGood
  else if s = "None" then Except.ok PyVal.vnone
  else Except.error ("name " ++ pyReprStr s ++ " is not defined"))

/-- `Root.__init__(self, name)` with type comment `# type: (Good) -> None`
(from `test_subclassing_with_no_init`). -/
def rootF : PyFunc :=
  PyFunc.mk ["self", "name"] Option.none Option.none [] [] ["# type: (Good) -> None"]

/-! ### Helper lemmas -/

/-- A value reported as `None` by the identity test is `vnone`. -/
theorem PyVal.isNone_eq_true {v : PyVal} (h : v.isNone = true) : v = PyVal.vnone := by
  cases v <;> first | rfl | exact absurd h (by simp [PyVal.isNone])

/-- Successful `make_call_types` decomposes into its three stages. -/
theorem make_call_types_ok (f : PyFunc) (env : EvalEnv)
    (ct : List (String × PyVal)) (rt : PyVal)
    (h : make_call_types f env = Except.ok (ct, rt)) :
    ∃ annos, usedAnnotations f env = Except.ok annos ∧
      buildCallTypes annos (defaultsOf f) (filteredArgs f) = Except.ok ct ∧
      resolveReturn annos = Except.ok rt := by
  unfold make_call_types at h
  cases hu : usedAnnotations f env with
  | error e => rw [hu] at h; simp at h
  | ok annos =>
    rw [hu] at h; dsimp only at h
    cases hb : buildCallTypes annos (defaultsOf f) (filteredArgs f) with
    | error e => rw [hb] at h; simp at h
    | ok ct2 =>
      rw [hb] at h; dsimp only at h
      cases hr : resolveReturn annos with
      | error e => rw [hr] at h; simp at h
      | ok rt2 =>
        rw [hr] at h; dsimp only at h
        simp only [Except.ok.injEq, Prod.mk.injEq] at h
        obtain ⟨h1, h2⟩ := h
        subst h1; subst h2
        exact ⟨annos, rfl, hb, hr⟩

/-- The keys of a successfully built `call_types` are exactly the argument
names, in order. -/
theorem buildCallTypes_keys (annos dmap : List (String × PyVal)) :
    ∀ (args : List String) (l : List (String × PyVal)),
      buildCallTypes annos dmap args = Except.ok l → l.map Prod.fst = args := by
  intro args
  induction args with
  | nil =>
    intro l h
    simp only [buildCallTypes] at h
    simp only [Except.ok.injEq] at h
    subst h; rfl
  | cons a rest ih =>
    intro l h
    simp only [buildCallTypes] at h
    cases hl : lookupA annos a with
    | none => rw [hl] at h; simp at h
    | some raw =>
      rw [hl] at h; dsimp only at h
      by_cases hA : (anno_with_default raw (lookupA dmap a)).isAnno = true
      · rw [if_pos hA] at h
        cases hr : buildCallTypes annos dmap rest with
        | error e => rw [hr] at h; simp at h
        | ok l2 =>
          rw [hr] at h
          simp only [Except.ok.injEq] at h
          subst h
          simp [ih l2 hr]
      · rw [if_neg hA] at h; simp at h

/-- Each entry of a successfully built `call_types` is the parameter's raw
annotation with its positional default attached. -/
theorem buildCallTypes_entry (annos dmap : List (String × PyVal)) :
    ∀ (args : List String) (l : List (String × PyVal)) (i : Nat) (a : String),
      buildCallTypes annos dmap args = Except.ok l → args[i]? = Option.some a →
      ∃ raw, lookupA annos a = Option.some raw ∧
        l[i]? = Option.some (a, anno_with_default raw (lookupA dmap a)) := by
  intro args
  induction args with
  | nil => intro l i a _ hi; simp at hi
  | cons b rest ih =>
    intro l i a h hi
    simp only [buildCallTypes] at h
    cases hl : lookupA annos b with
    | none => rw [hl] at h; simp at h
    | some raw =>
      rw [hl] at h; dsimp only at h
      by_cases hA : (anno_with_default raw (lookupA dmap b)).isAnno = true
      · rw [if_pos hA] at h
        cases hr : buildCallTypes annos dmap rest with
        | error e => rw [hr] at h; simp at h
        | ok l2 =>
          rw [hr] at h
          simp only [Except.ok.injEq] at h
          subst h
          cases i with
          | zero =>
            simp only [List.getElem?_cons_zero, Option.some.injEq] at hi
            subst hi
            exact ⟨raw, hl, by simp⟩
          | succ n =>
            simp only [List.getElem?_cons_succ] at hi ⊢
            exact ih l2 n a hr hi
      · rw [if_neg hA] at h; simp at h

/-- Looking up the `i`-th key of a zip of distinct keys yields the `i`-th
value. -/
theorem lookupA_zip :
    ∀ (xs : List String) (ys : List PyVal) (i : Nat) (a : String),
      xs.Nodup → xs.length = ys.length → xs[i]? = Option.some a →
      ∃ y, ys[i]? = Option.some y ∧ lookupA (xs.zip ys) a = Option.some y := by
  intro xs
  induction xs with
  | nil => intro ys i a _ _ hi; simp at hi
  | cons x xs ih =>
    intro ys i a hnd hlen hi
    cases ys with
    | nil => simp at hlen
    | cons y ys =>
      rw [List.nodup_cons] at hnd
      obtain ⟨hx, hnd2⟩ := hnd
      simp only [List.length_cons, Nat.succ.injEq] at hlen
      cases i with
      | zero =>
        simp only [List.getElem?_cons_zero, Option.some.injEq] at hi
        subst hi
        exact ⟨y, by simp, by simp [lookupA]⟩
      | succ n =>
        simp only [List.getElem?_cons_succ] at hi ⊢
        obtain ⟨y2, hy2, hlk⟩ := ih ys n a hnd2 hlen hi
        refine ⟨y2, hy2, ?_⟩
        have ha : a ∈ xs := by
          have := List.getElem?_eq_some_iff.mp hi
          obtain ⟨hn, hget⟩ := this
          exact hget ▸ List.getElem_mem hn
        have hxa : x ≠ a := fun hxe => hx (hxe ▸ ha)
        simpa [List.zip_cons_cons, lookupA, hxa] using hlk

/-- When no scanned comment carries a return part and every matched
argument expression resolves, the scan runs off the end and raises the
end-of-scan `ValueError`. -/
theorem maScan_no_arrow (env : EvalEnv) :
    ∀ (comments : List String) (args : List String) (types : List PyVal),
      (∀ c ∈ comments, ∀ p0 r, matchTypeRe c = Option.some (p0, r) → r = Option.none) →
      (∀ c ∈ comments, ∀ p0 r, matchTypeRe c = Option.some (p0, r) →
         p0 = "(...)" ∨ ∃ v, env.eval (removeStars p0) = Except.ok v) →
      maScan env args types comments =
        Except.error (PyErr.valueError
          "Got to the end of the function without seeing ->") := by
  intro comments
  induction comments with
  | nil => intro args types _ _; rfl
  | cons c rest ih =>
    intro args types hnoarrow hok
    have hnoarrow2 : ∀ c2 ∈ rest, ∀ p0 r, matchTypeRe c2 = Option.some (p0, r) →
        r = Option.none :=
      fun c2 hc2 => hnoarrow c2 (List.mem_cons_of_mem c hc2)
    have hok2 : ∀ c2 ∈ rest, ∀ p0 r, matchTypeRe c2 = Option.some (p0, r) →
        p0 = "(...)" ∨ ∃ v, env.eval (removeStars p0) = Except.ok v :=
      fun c2 hc2 => hok c2 (List.mem_cons_of_mem c hc2)
    simp only [maScan]
    cases hm : matchTypeRe c with
    | none => exact ih args types hnoarrow2 hok2
    | some pr =>
      obtain ⟨p0, r⟩ := pr
      have hr : r = Option.none := hnoarrow c (List.mem_cons_self c rest) p0 r hm
      subst hr
      have hev : ∃ types2, evalArgPart env types p0 = Except.ok types2 := by
        rcases hok c (List.mem_cons_self c rest) p0 Option.none hm with hdots | ⟨v, hv⟩
        · subst hdots
          exact ⟨types, by simp [evalArgPart]⟩
        · by_cases hne : p0 = "(...)"
          · subst hne
            exact ⟨types, by simp [evalArgPart]⟩
          · refine ⟨?_, ?_⟩
            · exact types ++ (match v with | PyVal.vtuple vs => vs | w => [w])
            · simp only [evalArgPart, if_neg hne, hv]
              cases v <;> rfl
      obtain ⟨types2, h2⟩ := hev
      dsimp only
      rw [h2]; dsimp only
      exact ih args types2 hnoarrow2 hok2

/-! ### Claim theorems -/

/-- C1: refuted by the code (which contradicts the repo's own
`test_subclassing_with_no_init`).  The declaration hook stores a fresh
empty `OrderedDict` as `call_types` and a fresh instance descriptor as
`return_type` for a class defining no own constructor: `Root` computes
`{"name": Good}` while its initless subclass `Sub1` stores `{}`, not the
ancestor's objects. -/
theorem callTypesMeta_subclass_not_inherited :
    callTypesMetaInit envC1 "Root" (Option.some rootF) =
      Except.ok ([("name", annoGood)], instanceAnno "Root")
    ∧ callTypesMetaInit envC1 "Sub1" Option.none =
      Except.ok ([], instanceAnno "Sub1")
    ∧ ([] : List (String × PyVal)) ≠ [("name", annoGood)]
    ∧ instanceAnno "Sub1" ≠ instanceAnno "Root" := by
  refine ⟨rfl, rfl, ?_, ?_⟩
  · intro h; exact List.noConfusion h
  · intro h
    simp only [instanceAnno] at h
    injection h with h1 h2 h3 h4
    exact absurd h2 (by decide)

/-- C2: refuted by the code (which contradicts the repo's own
`test_make_annotations_no_comments`).  On a callable whose source holds no
type comment at all, `make_annotations` raises the end-of-scan
`ValueError` instead of returning an empty mapping. -/
theorem make_annotations_no_comments_raises :
    make_annotations noCommentF envT =
      Except.error (PyErr.valueError
        "Got to the end of the function without seeing ->")
    ∧ make_annotations noCommentF envT ≠ Except.ok [] := by
  refine ⟨rfl, fun h => ?_⟩
  rw [show make_annotations noCommentF envT =
    Except.error (PyErr.valueError
      "Got to the end of the function without seeing ->") from rfl] at h
  exact Except.noConfusion h

/-- C5: a matched comment carrying a ` -> ` return part evaluates the
return expression, asserts that the resolved argument-type count equals
the declared parameter count (raising `AssertionError` listing both on
mismatch), zips names to types in order, stores the return type under
`"return"`, and returns without scanning any later comment. -/
theorem maScan_return_comment (env : EvalEnv) (args : List String)
    (types : List PyVal) (c : String) (rest : List String) (p0 rexpr : String)
    (h : matchTypeRe c = Option.some (p0, Option.some rexpr)) :
    maScan env args types (c :: rest) = maScan env args types [c]
    ∧ ∀ types2, evalArgPart env types p0 = Except.ok types2 →
        maScan env args types (c :: rest) =
          (match env.eval rexpr with
           | Except.error e =>
               Except.error (PyErr.valueError
                 ("Error evaluating " ++ pyReprStr rexpr ++ ": " ++ e))
           | Except.ok ob =>
             if args.length = types2.length then
               Except.ok (args.zip types2 ++ [("return", ob)])
             else
               Except.error (PyErr.assertionError
                 ("Args " ++ strListRepr args ++ " Types " ++ pyListRepr types2 ++
                   " length mismatch"))) := by
  constructor
  · simp only [maScan, h]
  · intro types2 h2
    simp only [maScan, h, h2]

/-- C5 witness: a concrete return-carrying comment makes the scan ignore
the following comment. -/
theorem maScan_return_comment_witness :
    maScan envT ["a"] [] ["# type: (int) -> None", "# type: (junk) -> junk"] =
      maScan envT ["a"] [] ["# type: (int) -> None"] :=
  (maScan_return_comment envT ["a"] [] "# type: (int) -> None"
    ["# type: (junk) -> junk"] "(int)" "None" rfl).1

/-- C6: a failing evaluation of an argument expression or of a return
expression raises `ValueError` naming the failed expression and the
underlying evaluation error. -/
theorem typecomment_eval_failure :
    (∀ (env : EvalEnv) (types : List PyVal) (p0 e : String),
       p0 ≠ "(...)" → env.eval (removeStars p0) = Except.error e →
       evalArgPart env types p0 = Except.error (PyErr.valueError
         ("Error evaluating " ++ pyReprStr (removeStars p0) ++ ": " ++ e)))
    ∧ (∀ (env : EvalEnv) (args : List String) (types types2 : List PyVal)
         (c : String) (rest : List String) (p0 rexpr e : String),
       matchTypeRe c = Option.some (p0, Option.some rexpr) →
       evalArgPart env types p0 = Except.ok types2 →
       env.eval rexpr = Except.error e →
       maScan env args types (c :: rest) = Except.error (PyErr.valueError
         ("Error evaluating " ++ pyReprStr rexpr ++ ": " ++ e))) := by
  constructor
  · intro env types p0 e hne he
    simp only [evalArgPart, if_neg hne, he]
  · intro env args types types2 c rest p0 rexpr e h1 h2 h3
    simp only [maScan, h1, h2, h3]

/-- C6 witness: an argument expression referencing an undefined name fails
naming that expression and the underlying name error. -/
theorem typecomment_eval_failure_witness :
    evalArgPart envT [] "(NonExistant)" =
      Except.error (PyErr.valueError
        "Error evaluating \x27(NonExistant)\x27: name \x27(NonExistant)\x27 is not defined") :=
  typecomment_eval_failure.1 envT [] "(NonExistant)"
    "name \x27(NonExistant)\x27 is not defined" (by decide) rfl

/-- C8: a parameter whose name has no entry in the raw annotation mapping
makes the `call_types` loop fail with `KeyError` on that name; a parameter
whose resolved annotation is not an `Anno` makes it fail with an
`AssertionError` naming the parameter and its resolved value; either
failure propagates out of `make_call_types`. -/
theorem calltypes_lookup_and_assert_failures :
    (∀ (annos dmap : List (String × PyVal)) (a : String) (rest : List String),
       lookupA annos a = Option.none →
       buildCallTypes annos dmap (a :: rest) = Except.error (PyErr.keyError a))
    ∧ (∀ (annos dmap : List (String × PyVal)) (a : String) (rest : List String)
         (raw : PyVal),
       lookupA annos a = Option.some raw →
       (anno_with_default raw (lookupA dmap a)).isAnno = false →
       buildCallTypes annos dmap (a :: rest) = Except.error (PyErr.assertionError
         ("Argument " ++ pyReprStr a ++ " has type " ++
           pyReprV (anno_with_default raw (lookupA dmap a)) ++
           " which is not an Anno")))
    ∧ (∀ (f : PyFunc) (env : EvalEnv) (annos : List (String × PyVal)) (e : PyErr),
       usedAnnotations f env = Except.ok annos →
       buildCallTypes annos (defaultsOf f) (filteredArgs f) = Except.error e →
       make_call_types f env = Except.error e) := by
  refine ⟨?_, ?_, ?_⟩
  · intro annos dmap a rest hl
    simp only [buildCallTypes, hl]
  · intro annos dmap a rest raw hl hA
    simp only [buildCallTypes, hl]
    rw [if_neg (by simp [hA])]
  · intro f env annos e hu hb
    unfold make_call_types
    rw [hu]; dsimp only
    rw [hb]

/-- C8 witness: a parameter missing from an empty annotation mapping
raises `KeyError` on its name. -/
theorem calltypes_lookup_and_assert_failures_witness :
    buildCallTypes [] [] ["x"] = Except.error (PyErr.keyError "x") :=
  calltypes_lookup_and_assert_failures.1 [] [] "x" [] rfl

/-- C9: both the introspection engine and the type-comment parser drop a
parameter exactly when it is literally named `"self"`, at any position;
in particular the leading `"cls"` of a classmethod is kept and consumes
one resolved argument type like any other parameter. -/
theorem self_exclusion_spec :
    (∀ (f : PyFunc) (x : String), x ∈ filteredArgs f ↔ (x ∈ f.argNames ∧ x ≠ "self"))
    ∧ make_annotations clsmethodF envT =
        Except.ok [("cls", PyVal.vobj "T"), ("a", PyVal.vobj "str"),
          ("return", PyVal.vobj "str")]
    ∧ filteredArgs (PyFunc.mk ["a", "self", "b"] Option.none Option.none [] [] []) =
        ["a", "b"]
    ∧ maArgs (PyFunc.mk ["a", "self", "b"] (Option.some "args") (Option.some "kwargs")
        [] [] []) = ["a", "b", "args", "kwargs"] := by
  refine ⟨?_, rfl, rfl, rfl⟩
  intro f x
  simp [filteredArgs, List.mem_filter]

/-- C9 witness: the classmethod head `"cls"` is kept by the filter. -/
theorem self_exclusion_spec_witness :
    "cls" ∈ filteredArgs clsmethodF :=
  (self_exclusion_spec.1 clsmethodF "cls").mpr (by decide)

/-- C10: before evaluation every asterisk anywhere in the argument
expression is deleted, interior ones included, as witnessed under the
observing namespace `idEnv`: the value received by evaluation is the raw
group text with all `*` characters filtered out. -/
theorem star_deletion_spec :
    ∀ (types : List PyVal) (p0 : String), p0 ≠ "(...)" →
      evalArgPart idEnv types p0 =
        Except.ok (types ++
          [PyVal.vstr (String.mk (p0.data.filter (fun ch => ch ≠ '*')))]) := by
  intro types p0 h
  simp only [evalArgPart, if_neg h, idEnv, removeStars]

/-- C10 witness: an interior asterisk (not a splat marker) is deleted
before evaluation. -/
theorem star_deletion_spec_witness :
    evalArgPart idEnv [] "(x*y*)" = Except.ok [PyVal.vstr "(xy)"] :=
  star_deletion_spec [] "(x*y*)" (by decide)

/-- C4: the return descriptor of a successful `make_call_types` comes from
`resolveReturn` on the raw mapping: `None` when there is no `"return"`
entry, the synthesized `Anno("Any return value", Any, "return")` when the
entry resolves to the `Any` marker, the descriptor itself when the entry
is a descriptor, and on success always either `None` or a genuine
descriptor. -/
theorem make_call_types_return_spec :
    (∀ annos : List (String × PyVal),
       (lookupA annos "return" = Option.none →
          resolveReturn annos = Except.ok PyVal.vnone)
       ∧ (lookupA annos "return" = Option.some PyVal.vany →
          resolveReturn annos =
            Except.ok (PyVal.vanno "Any return value" "Any" "return" Option.none))
       ∧ (∀ d t n df, lookupA annos "return" = Option.some (PyVal.vanno d t n df) →
          resolveReturn annos = Except.ok (PyVal.vanno d t n df))
       ∧ (∀ rt, resolveReturn annos = Except.ok rt →
          rt = PyVal.vnone ∨ rt.isAnno = true))
    ∧ (∀ (f : PyFunc) (env : EvalEnv) (ct : List (String × PyVal)) (rt : PyVal),
       make_call_types f env = Except.ok (ct, rt) →
       ∃ annos, usedAnnotations f env = Except.ok annos ∧
         resolveReturn annos = Except.ok rt) := by
  constructor
  · intro annos
    refine ⟨?_, ?_, ?_, ?_⟩
    · intro h
      simp [resolveReturn, h, anno_with_default, PyVal.isAny, PyVal.isNone]
    · intro h
      simp [resolveReturn, h, anno_with_default, PyVal.isAny, PyVal.isNone, PyVal.isAnno]
    · intro d t n df h
      simp [resolveReturn, h, anno_with_default, PyVal.isAny, PyVal.isNone, PyVal.isAnno]
    · intro rt h
      simp only [resolveReturn] at h
      by_cases hAny :
          (anno_with_default ((lookupA annos "return").getD PyVal.vnone)
            Option.none).isAny = true
      · rw [if_pos hAny] at h
        simp only [PyVal.isNone, PyVal.isAnno, Bool.false_or, if_true] at h
        simp only [Except.ok.injEq] at h
        subst h
        exact Or.inr rfl
      · rw [if_neg hAny] at h
        by_cases hc :
            ((anno_with_default ((lookupA annos "return").getD PyVal.vnone)
              Option.none).isNone ||
             (anno_with_default ((lookupA annos "return").getD PyVal.vnone)
              Option.none).isAnno) = true
        · rw [if_pos hc] at h
          simp only [Except.ok.injEq] at h
          subst h
          simp only [Bool.or_eq_true] at hc
          rcases hc with h1 | h1
          · exact Or.inl (PyVal.isNone_eq_true h1)
          · exact Or.inr h1
        · rw [if_neg hc] at h
          simp at h
  · intro f env ct rt h
    obtain ⟨annos, h1, _, h3⟩ := make_call_types_ok f env ct rt h
    exact ⟨annos, h1, h3⟩

/-- C4 witness: an empty raw mapping yields a `None` return descriptor. -/
theorem make_call_types_return_spec_witness :
    resolveReturn [] = Except.ok PyVal.vnone :=
  (make_call_types_return_spec.1 []).1 rfl

/-- C3: a successful `make_call_types` keys its `call_types` by the formal
parameter names in declaration order with every `"self"` removed; the raw
annotation mapping is the live annotations when present and non-empty and
the type-comment parse otherwise; and each trailing parameter's entry is
its raw annotation with the positionally corresponding default value
attached. -/
theorem make_call_types_order_spec (f : PyFunc) (env : EvalEnv)
    (ct : List (String × PyVal)) (rt : PyVal)
    (h : make_call_types f env = Except.ok (ct, rt)) :
    (ct.map Prod.fst = f.argNames.filter (fun k => k ≠ "self"))
    ∧ (f.annotations.isEmpty = true → usedAnnotations f env = make_annotations f env)
    ∧ (f.annotations.isEmpty = false → usedAnnotations f env = Except.ok f.annotations)
    ∧ ((filteredArgs f).Nodup → f.defaults.length ≤ (filteredArgs f).length →
       ∀ (i : Nat) (a : String) (d : PyVal),
         (filteredArgs f)[(filteredArgs f).length - f.defaults.length + i]? =
           Option.some a →
         f.defaults[i]? = Option.some d →
         ∃ annos raw, usedAnnotations f env = Except.ok annos ∧
           lookupA annos a = Option.some raw ∧
           ct[(filteredArgs f).length - f.defaults.length + i]? =
             Option.some (a, anno_with_default raw (Option.some d))) := by
  obtain ⟨annos, hu, hb, _⟩ := make_call_types_ok f env ct rt h
  refine ⟨?_, ?_, ?_, ?_⟩
  · exact buildCallTypes_keys annos (defaultsOf f) (filteredArgs f) ct hb
  · intro he; simp [usedAnnotations, he]
  · intro he; simp [usedAnnotations, he]
  · intro hnd hlen i a d hia hid
    obtain ⟨raw, hraw, hctval⟩ :=
      buildCallTypes_entry annos (defaultsOf f) (filteredArgs f) ct
        ((filteredArgs f).length - f.defaults.length + i) a hb hia
    have hdl : lookupA (defaultsOf f) a = Option.some d := by
      have hne : ¬ f.defaults.isEmpty = true := by
        cases hd : f.defaults with
        | nil => rw [hd] at hid; simp at hid
        | cons x xs => simp
      unfold defaultsOf
      rw [if_neg hne]
      have hdrop : ((filteredArgs f).drop
          ((filteredArgs f).length - f.defaults.length))[i]? = Option.some a := by
        rw [List.getElem?_drop]
        exact hia
      have hndd : ((filteredArgs f).drop
          ((filteredArgs f).length - f.defaults.length)).Nodup :=
        hnd.sublist (List.drop_sublist _ _)
      have hlend : ((filteredArgs f).drop
          ((filteredArgs f).length - f.defaults.length)).length =
          f.defaults.length := by
        rw [List.length_drop]
        exact Nat.sub_sub_self hlen
      obtain ⟨y, hy, hlk⟩ :=
        lookupA_zip _ f.defaults i a hndd hlend hdrop
      rw [hid] at hy
      simp only [Option.some.injEq] at hy
      rw [← hy] at hlk
      exact hlk
    rw [hdl] at hctval
    exact ⟨annos, raw, hu, hraw, hctval⟩

/-- A constructor fixture for the C3 witness: `(self, a, b="dflt")` with
live annotations covering `a`, `b` and the return. -/
def defaultsF : PyFunc :=
  PyFunc.mk ["self", "a", "b"] Option.none Option.none [PyVal.vstr "dflt"]
    [("a", PyVal.vanno "A doc" "int" "a" Option.none),
     ("b", PyVal.vanno "B doc" "str" "b" Option.none),
     ("return", PyVal.vnone)] []

/-- C3 witness: on the concrete constructor the keys come out in
declaration order without `self`. -/
theorem make_call_types_order_spec_witness :
    ([("a", PyVal.vanno "A doc" "int" "a" Option.none),
      ("b", PyVal.vanno "B doc" "str" "b" (Option.some (PyVal.vstr "dflt")))] :
        List (String × PyVal)).map Prod.fst =
      defaultsF.argNames.filter (fun k => k ≠ "self") :=
  (make_call_types_order_spec defaultsF envT
    [("a", PyVal.vanno "A doc" "int" "a" Option.none),
     ("b", PyVal.vanno "B doc" "str" "b" (Option.some (PyVal.vstr "dflt")))]
    PyVal.vnone rfl).1

/-- C7 (amended): when the source holds at least one recognized type
comment, none of the scanned comments carries a ` -> ` return part, and
every matched argument expression evaluates successfully (or is the
`(...)` continuation marker), `make_annotations` fails with the
end-of-scan `ValueError`. -/
theorem make_annotations_no_arrow_spec (f : PyFunc) (env : EvalEnv)
    (h1 : ∃ c ∈ f.sourceComments, (matchTypeRe c).isSome = true)
    (h2 : ∀ c ∈ f.sourceComments, ∀ p0 r, matchTypeRe c = Option.some (p0, r) →
        r = Option.none)
    (h3 : ∀ c ∈ f.sourceComments, ∀ p0 r, matchTypeRe c = Option.some (p0, r) →
        p0 = "(...)" ∨ ∃ v, env.eval (removeStars p0) = Except.ok v) :
    make_annotations f env =
      Except.error (PyErr.valueError
        "Got to the end of the function without seeing ->") :=
  maScan_no_arrow env f.sourceComments (maArgs f) [] h2 h3

/-- C7 counterexample: a callable with one recognized return-less type
comment whose argument expression does not resolve fails with the
expression-evaluation `ValueError`, not with the end-of-scan one, so the
claim as frozen does not hold of every such callable. -/
theorem make_annotations_no_arrow_counterexample :
    make_annotations noArrowBadF envT =
      Except.error (PyErr.valueError
        "Error evaluating \x27(NonExistant)\x27: name \x27(NonExistant)\x27 is not defined")
    ∧ make_annotations noArrowBadF envT ≠
      Except.error (PyErr.valueError
        "Got to the end of the function without seeing ->") := by
  refine ⟨rfl, fun h => ?_⟩
  rw [show make_annotations noArrowBadF envT =
    Except.error (PyErr.valueError
      "Error evaluating \x27(NonExistant)\x27: name \x27(NonExistant)\x27 is not defined")
    from rfl] at h
  injection h with h1
  injection h1 with h2
  exact absurd h2 (by decide)

/-- C7 witness: a callable with one recognized return-less comment whose
argument expression resolves fails with the end-of-scan error. -/
theorem make_annotations_no_arrow_spec_witness :
    make_annotations noArrowOkF envT =
      Except.error (PyErr.valueError
        "Got to the end of the function without seeing ->") :=
  make_annotations_no_arrow_spec noArrowOkF envT
    ⟨"# type: (int)", List.mem_cons_self _ _, rfl⟩
    (by
      intro c hc p0 r hm
      simp only [noArrowOkF, List.mem_singleton] at hc
      subst hc
      rw [show matchTypeRe "# type: (int)" =
        Option.some ("(int)", Option.none) from rfl] at hm
      injection hm with hpr
      injection hpr with hp hr
      exact hr.symm)
    (by
      intro c hc p0 r hm
      simp only [noArrowOkF, List.mem_singleton] at hc
      subst hc
      rw [show matchTypeRe "# type: (int)" =
        Option.some ("(int)", Option.none) from rfl] at hm
      injection hm with hpr
      injection hpr with hp hr
      refine Or.inr ⟨PyVal.vobj "int", ?_⟩
      rw [← hp]
      rfl)
